import Mathlib

/-!
Verification of the qianchuan video-processor (src/main.py) against its
specification. The Python source is shallowly embedded: pure functions become
Lean functions, Python floats are modelled as exact rationals, Python `int()`
truncation of a non-negative quotient is natural-number division, and the
external services (ffprobe subprocess, json.loads, the regex repair chain,
ffmpeg encoding) appear as explicit inputs or as the data they would produce.
-/

namespace QianchuanProcessor

/-- Fixed policy constants, src/main.py lines 39-44. The tolerance constant
0.01 (line 44) is modelled as the exact rational 1/100. -/
def TARGET_WIDTH : ℕ := 1080

/-- Target output height, line 40. -/
def TARGET_HEIGHT : ℕ := 1920

/-- Forced output frame rate, line 41. -/
def TARGET_FPS : ℕ := 30

/-- Forced target bitrate in kbps, line 42. -/
def TARGET_BITRATE_K : ℕ := 1000

/-- Minimum acceptable bitrate in kbps, line 43. -/
def MIN_BITRATE_K : ℕ := 516

/-- Embeds `is_valid_resolution` (lines 163-164):
`(720 <= w <= 1440) and (1280 <= h <= 2560)`. -/
def resolutionOk (w h : ℕ) : Bool :=
  decide ((720 ≤ w ∧ w ≤ 1440) ∧ (1280 ≤ h ∧ h ≤ 2560))

/-- Embeds `is_valid_aspect_ratio` (lines 167-170): the float computation
`abs(w/h - 9/16) <= 0.01` modelled over exact rationals. -/
def aspectOk (w h : ℕ) : Bool :=
  decide (|(w : ℚ) / (h : ℚ) - 9 / 16| ≤ 1 / 100)

/-- The geometry plan computed by `process_video` lines 201-211: post-scale
dimensions and the centered crop offsets. -/
structure GeometryPlan where
  scaleWidth : ℕ
  scaleHeight : ℕ
  cropX : ℤ
  cropY : ℤ
  deriving DecidableEq, Repr

/-- Step 1 tentative height, line 205: `int(src_h * (target_w / src_w))`.
For positive operands the float product truncated by `int()` is the floor of
the exact quotient, i.e. natural division. -/
def tentativeScaleH (w h : ℕ) : ℕ := h * TARGET_WIDTH / w

/-- Step 2 re-derived width, line 208: `int(src_w * (target_h / src_h))`. -/
def rederivedScaleW (w h : ℕ) : ℕ := w * TARGET_HEIGHT / h

/-- Python `//` floor division on integers. -/
def pyFloorDiv (a b : ℤ) : ℤ := Int.fdiv a b

/-- Embeds the Geometry Planner, `process_video` lines 201-211. -/
def geometryPlan (w h : ℕ) : GeometryPlan :=
  let scale0 : ℕ × ℕ :=
    if tentativeScaleH w h < TARGET_HEIGHT then
      (rederivedScaleW w h, TARGET_HEIGHT)
    else
      (TARGET_WIDTH, tentativeScaleH w h)
  { scaleWidth := scale0.1
    scaleHeight := scale0.2
    cropX := max 0 (pyFloorDiv ((scale0.1 : ℤ) - (TARGET_WIDTH : ℤ)) 2)
    cropY := max 0 (pyFloorDiv ((scale0.2 : ℤ) - (TARGET_HEIGHT : ℤ)) 2) }

/-- One entry of the ffprobe `streams` array, restricted to the fields
`get_video_info` reads (lines 127-144). Dimensions are modelled as optional
naturals (JSON numbers; `none` = field missing, defaulted to 0 by the code),
`r_frame_rate` as the rational value of a successful evaluation of the
num/den field (`none` = field missing or unevaluable, defaulted to 30.0),
and `bit_rate` as the raw optional string ffprobe emits. -/
structure StreamInfo where
  codec_type : Option String
  width : Option ℕ
  height : Option ℕ
  r_frame_rate : Option ℚ
  bit_rate : Option String
  deriving DecidableEq, Repr

/-- The parsed ffprobe JSON tree, restricted to what the code reads:
the `streams` array and `format.bit_rate` (lines 127, 144). -/
structure ProbeData where
  streams : List StreamInfo
  format_bit_rate : Option String
  deriving DecidableEq, Repr

/-- The record `get_video_info` returns on success (lines 147-153). -/
structure VideoProbe where
  width : ℕ
  height : ℕ
  bitrate_kbps : ℕ
  fps : ℚ
  has_audio : Bool
  deriving DecidableEq, Repr

/-- Stream test `stream.get('codec_type') == 'video'` (line 128). -/
def isVideoStream (s : StreamInfo) : Bool := decide (s.codec_type = some "video")

/-- Stream test `stream.get('codec_type') == 'audio'` (line 130). -/
def isAudioStream (s : StreamInfo) : Bool := decide (s.codec_type = some "audio")

/-- One iteration of the stream loop of lines 127-131: a video-tagged stream
overwrites the remembered video stream; otherwise an audio-tagged stream sets
the audio flag. -/
def scanStep (acc : Option StreamInfo × Bool) (s : StreamInfo) :
    Option StreamInfo × Bool :=
  if isVideoStream s then (some s, acc.2)
  else if isAudioStream s then (acc.1, true)
  else acc

/-- The whole stream loop of lines 125-131, started from
`video_stream = None; has_audio = False`. -/
def streamScan (ss : List StreamInfo) : Option StreamInfo × Bool :=
  ss.foldl scanStep (none, false)

/-- Python `a or b` on optional strings: `None` and the empty string are
falsy and fall through to `b` (line 144). -/
def pyOr (a b : Option String) : Option String :=
  match a with
  | some s => if s = "" then b else some s
  | none => b

/-- Python truthiness plus `str.isdigit()` on the bitrate string (line 145),
restricted to ASCII digit strings. -/
def isDigitStr (s : String) : Bool := !(s.data = []) && s.data.all Char.isDigit

/-- Python `int(s)` on a digit string: base-10 value of the digits. -/
def pyInt (s : String) : ℕ :=
  s.data.foldl (fun n c => n * 10 + (c.toNat - 48)) 0

/-- Line 145: `int(bitrate_str) // 1000 if bitrate_str and
bitrate_str.isdigit() else 0`. -/
def parseBitrate : Option String → ℕ
  | some s => if isDigitStr s then pyInt s / 1000 else 0
  | none => 0

/-- Lines 125-153 of `get_video_info`, from the parsed metadata tree to the
returned record: scan the streams, bail out with `None` when no video-tagged
stream was seen, otherwise build the probe record with missing dimensions
defaulted to 0, the frame-rate fallback 30.0, and the bitrate resolution of
lines 144-145. -/
def extractInfo (pd : ProbeData) : Option VideoProbe :=
  match streamScan pd.streams with
  | (none, _) => none
  | (some vs, has_audio) =>
    some { width := vs.width.getD 0
           height := vs.height.getD 0
           bitrate_kbps := parseBitrate (pyOr vs.bit_rate pd.format_bit_rate)
           fps := vs.r_frame_rate.getD 30
           has_audio := has_audio }

end QianchuanProcessor

namespace QianchuanProcessor

/-- A stream tagged video is not tagged audio: `codec_type` is one value. -/
lemma video_not_audio {s : StreamInfo} (h : isVideoStream s = true) :
    isAudioStream s = false := by
  unfold isVideoStream isAudioStream at *
  simp only [decide_eq_true_eq] at h
  simp [h]

/-- The stream loop started from any accumulator: the remembered video stream
is the last video-tagged stream (the first of the reversed list), and the
audio flag is an `any` over the audio tag. -/
lemma streamScan_go (ss : List StreamInfo) (acc : Option StreamInfo × Bool) :
    List.foldl scanStep acc ss =
      ((ss.reverse.find? isVideoStream).elim acc.1 some,
       acc.2 || ss.any isAudioStream) := by
  induction ss generalizing acc with
  | nil => simp
  | cons x xs ih =>
    rw [List.foldl_cons, ih (scanStep acc x), List.reverse_cons,
        List.find?_append]
    by_cases hv : isVideoStream x
    · have ha := video_not_audio hv
      cases hfind : xs.reverse.find? isVideoStream <;>
        simp [scanStep, hv, ha, hfind, Option.orElse]
    · by_cases ha : isAudioStream x
      · cases hfind : xs.reverse.find? isVideoStream <;>
          simp [scanStep, hv, ha, hfind, Option.orElse, Bool.or_comm,
                Bool.or_assoc]
      · cases hfind : xs.reverse.find? isVideoStream <;>
          simp [scanStep, hv, ha, hfind, Option.orElse]

/-- The stream scan selects the last video-tagged stream and any-audio. -/
lemma streamScan_eq (ss : List StreamInfo) :
    streamScan ss = (ss.reverse.find? isVideoStream, ss.any isAudioStream) := by
  unfold streamScan
  rw [streamScan_go]
  cases hfind : ss.reverse.find? isVideoStream <;> simp [hfind]

/-- Closed-form characterization of `extractInfo`: the probe record is built
from the last video-tagged stream when one exists, otherwise `none`. -/
lemma extractInfo_char (pd : ProbeData) :
    extractInfo pd = (pd.streams.reverse.find? isVideoStream).map (fun vs =>
      { width := vs.width.getD 0
        height := vs.height.getD 0
        bitrate_kbps := parseBitrate (pyOr vs.bit_rate pd.format_bit_rate)
        fps := vs.r_frame_rate.getD 30
        has_audio := pd.streams.any isAudioStream }) := by
  unfold extractInfo
  rw [streamScan_eq]
  cases hfind : pd.streams.reverse.find? isVideoStream <;> simp [hfind]

/-- C1: the cover guarantee of the Geometry Planner. For every positive
source width and height, the planned scale dimensions dominate the
1080x1920 target and both crop offsets are non-negative. -/
theorem geometryPlan_cover (w h : ℕ) (hw : 0 < w) (hh : 0 < h) :
    TARGET_WIDTH ≤ (geometryPlan w h).scaleWidth ∧
    TARGET_HEIGHT ≤ (geometryPlan w h).scaleHeight ∧
    0 ≤ (geometryPlan w h).cropX ∧ 0 ≤ (geometryPlan w h).cropY := by
  unfold geometryPlan
  by_cases hbr : tentativeScaleH w h < TARGET_HEIGHT
  · simp only [hbr, if_true]
    refine ⟨?_, le_refl _, le_max_left 0 _, le_max_left 0 _⟩
    unfold tentativeScaleH at hbr
    unfold rederivedScaleW TARGET_WIDTH TARGET_HEIGHT at *
    rw [Nat.div_lt_iff_lt_mul hw] at hbr
    rw [Nat.le_div_iff_mul_le hh]
    nlinarith
  · simp only [hbr, if_false]
    exact ⟨le_refl _, Nat.le_of_not_lt hbr, le_max_left 0 _, le_max_left 0 _⟩

/-- C1 witness at the concrete source size 1920x1080. -/
theorem geometryPlan_cover_witness :
    TARGET_WIDTH ≤ (geometryPlan 1920 1080).scaleWidth ∧
    TARGET_HEIGHT ≤ (geometryPlan 1920 1080).scaleHeight ∧
    0 ≤ (geometryPlan 1920 1080).cropX ∧ 0 ≤ (geometryPlan 1920 1080).cropY :=
  geometryPlan_cover 1920 1080 (by decide) (by decide)

/-- C5 counterexample: at source 1000x1999 the code keeps the step-1 height
`int(1999 * 1080 / 1000) = 2158`, while rounding to nearest as the claim
states would give 2159. -/
theorem geometryPlan_not_round :
    (geometryPlan 1000 1999).scaleHeight = 2158 ∧
    round ((1999 * 1080 : ℚ) / 1000) = 2159 := by
  constructor
  · decide
  · rw [round_eq]
    norm_num [Int.floor_eq_iff]

/-- C5 amended: the planner truncates rather than rounds. For positive
source dimensions, the step-1 tentative height is the floor of
h*1080/w and the step-2 re-derived width is the floor of w*1920/h,
and the plan is assembled from them exactly as the branch dictates. -/
theorem geometryPlan_floor (w h : ℕ) (hw : 0 < w) (hh : 0 < h) :
    tentativeScaleH w h = ⌊(h * 1080 : ℚ) / (w : ℚ)⌋₊ ∧
    rederivedScaleW w h = ⌊(w * 1920 : ℚ) / (h : ℚ)⌋₊ ∧
    (geometryPlan w h).scaleHeight =
      (if tentativeScaleH w h < 1920 then 1920 else tentativeScaleH w h) ∧
    (geometryPlan w h).scaleWidth =
      (if tentativeScaleH w h < 1920 then rederivedScaleW w h else 1080) := by
  refine ⟨?_, ?_, ?_, ?_⟩
  · have e1 : ((h : ℚ) * 1080) = ((h * 1080 : ℕ) : ℚ) := by push_cast; ring
    rw [e1, Nat.floor_div_eq_div]
    rfl
  · have e2 : ((w : ℚ) * 1920) = ((w * 1920 : ℕ) : ℚ) := by push_cast; ring
    rw [e2, Nat.floor_div_eq_div]
    rfl
  · unfold geometryPlan TARGET_HEIGHT
    by_cases hbr : tentativeScaleH w h < 1920 <;> simp [hbr]
  · unfold geometryPlan TARGET_HEIGHT TARGET_WIDTH
    by_cases hbr : tentativeScaleH w h < 1920 <;> simp [hbr]

/-- C5 amended witness at the concrete source size 1000x1999. -/
theorem geometryPlan_floor_witness :
    tentativeScaleH 1000 1999 = ⌊(1999 * 1080 : ℚ) / (1000 : ℚ)⌋₊ ∧
    rederivedScaleW 1000 1999 = ⌊(1000 * 1920 : ℚ) / (1999 : ℚ)⌋₊ ∧
    (geometryPlan 1000 1999).scaleHeight =
      (if tentativeScaleH 1000 1999 < 1920 then 1920
       else tentativeScaleH 1000 1999) ∧
    (geometryPlan 1000 1999).scaleWidth =
      (if tentativeScaleH 1000 1999 < 1920 then rederivedScaleW 1000 1999
       else 1080) :=
  geometryPlan_floor 1000 1999 (by decide) (by decide)

end QianchuanProcessor

namespace QianchuanProcessor

/-- First video-tagged stream of the C3 counterexample, width 640. -/
def c3StreamFirst : StreamInfo :=
  { codec_type := some "video", width := some 640, height := some 360,
    r_frame_rate := some 24, bit_rate := none }

/-- Second video-tagged stream of the C3 counterexample, width 1080. -/
def c3StreamSecond : StreamInfo :=
  { codec_type := some "video", width := some 1080, height := some 1920,
    r_frame_rate := some 30, bit_rate := none }

/-- A metadata tree with two video-tagged streams. -/
def c3TwoVideos : ProbeData :=
  { streams := [c3StreamFirst, c3StreamSecond], format_bit_rate := none }

/-- C3 counterexample: with two video-tagged streams, the first one has width
640 but the probe records width 1080 from the second (last) one — the loop
overwrites the remembered stream without breaking. -/
theorem extractInfo_not_first_video :
    c3TwoVideos.streams.find? isVideoStream = some c3StreamFirst ∧
    c3StreamFirst.width = some 640 ∧
    extractInfo c3TwoVideos =
      some { width := 1080, height := 1920, bitrate_kbps := 0, fps := 30,
             has_audio := false } := by
  refine ⟨by decide, rfl, by decide⟩

/-- C3 amended: the recorded width, height and frame rate come from the last
video-tagged stream in stream order; hasAudio is true iff at least one
stream is audio-tagged; absence of any video-tagged stream yields the
unprobeable result. -/
theorem extractInfo_stream_selection (pd : ProbeData) :
    (pd.streams.reverse.find? isVideoStream = none → extractInfo pd = none) ∧
    (∀ vs, pd.streams.reverse.find? isVideoStream = some vs →
      ∃ p, extractInfo pd = some p ∧
        p.width = vs.width.getD 0 ∧ p.height = vs.height.getD 0 ∧
        p.fps = vs.r_frame_rate.getD 30 ∧
        (p.has_audio = true ↔ ∃ s ∈ pd.streams, isAudioStream s = true)) := by
  constructor
  · intro hnone
    rw [extractInfo_char, hnone]
    rfl
  · intro vs hvs
    rw [extractInfo_char, hvs]
    exact ⟨_, rfl, rfl, rfl, rfl, by simp [List.any_eq_true]⟩

/-- C3 amended witness at the two-video-stream tree. -/
theorem extractInfo_stream_selection_witness :
    ∃ p, extractInfo c3TwoVideos = some p ∧
      p.width = c3StreamSecond.width.getD 0 ∧
      p.height = c3StreamSecond.height.getD 0 ∧
      p.fps = c3StreamSecond.r_frame_rate.getD 30 ∧
      (p.has_audio = true ↔ ∃ s ∈ c3TwoVideos.streams, isAudioStream s = true) :=
  (extractInfo_stream_selection c3TwoVideos).2 c3StreamSecond (by decide)

/-- A video-tagged stream with no width and no height field. -/
def c4Stream : StreamInfo :=
  { codec_type := some "video", width := none, height := none,
    r_frame_rate := none, bit_rate := none }

/-- A metadata tree whose only stream is video-tagged but dimensionless. -/
def c4NoDims : ProbeData := { streams := [c4Stream], format_bit_rate := none }

/-- C4 counterexample: a metadata tree with a video-tagged stream whose
dimension fields are missing yields a zero-filled probe record (width = 0,
height = 0), not the unprobeable result. -/
theorem extractInfo_zero_dims :
    extractInfo c4NoDims =
      some { width := 0, height := 0, bitrate_kbps := 0, fps := 30,
             has_audio := false } := by
  decide

/-- C4 amended: the prober substitutes 0 for missing dimension fields, so
a returned probe has positive width/height iff the selected (last)
video-tagged stream declares the corresponding field with a positive value;
missing or zero dimension fields do produce a zero-filled record. -/
theorem extractInfo_dims_positive (pd : ProbeData) (vs : StreamInfo)
    (hvs : pd.streams.reverse.find? isVideoStream = some vs) :
    ∃ p, extractInfo pd = some p ∧
      (0 < p.width ↔ ∃ n, vs.width = some n ∧ 0 < n) ∧
      (0 < p.height ↔ ∃ n, vs.height = some n ∧ 0 < n) := by
  rw [extractInfo_char, hvs]
  refine ⟨_, rfl, ?_, ?_⟩
  · cases hw : vs.width <;> simp [hw]
  · cases hh : vs.height <;> simp [hh]

/-- C4 amended witness at the dimensionless tree. -/
theorem extractInfo_dims_positive_witness :
    ∃ p, extractInfo c4NoDims = some p ∧
      (0 < p.width ↔ ∃ n, c4Stream.width = some n ∧ 0 < n) ∧
      (0 < p.height ↔ ∃ n, c4Stream.height = some n ∧ 0 < n) :=
  extractInfo_dims_positive c4NoDims c4Stream (by decide)

/-- A video-tagged stream whose bit-rate field is present but invalid. -/
def c6Stream : StreamInfo :=
  { codec_type := some "video", width := some 1080, height := some 1920,
    r_frame_rate := some 30, bit_rate := some "N/A" }

/-- A metadata tree with an invalid stream-level bit-rate string and a valid
container-level one. -/
def c6BadStreamRate : ProbeData :=
  { streams := [c6Stream], format_bit_rate := some "2000000" }

/-- C6 counterexample: the stream-level bit-rate field is the non-digit
string "N/A" while the container-level field is the valid "2000000"; the
code records bitrate 0 instead of the container-level 2000 kbps the claim
requires, because Python `or` only falls through on falsy values. -/
theorem extractInfo_no_fallback :
    isDigitStr "N/A" = false ∧ isDigitStr "2000000" = true ∧
    ∃ p, extractInfo c6BadStreamRate = some p ∧ p.bitrate_kbps = 0 ∧
      ¬ p.bitrate_kbps = 2000 := by
  decide

/-- C6 amended: the stream-level bit-rate string is preferred when it is a
valid digit string; the container-level field is consulted exactly when the
stream-level field is absent or empty (then a valid container value is
recorded and anything else records 0); a present, non-empty but invalid
stream-level field records 0 even when the container-level field is valid. -/
theorem extractInfo_bitrate (pd : ProbeData) (vs : StreamInfo)
    (hvs : pd.streams.reverse.find? isVideoStream = some vs) :
    ∃ p, extractInfo pd = some p ∧
      (∀ s, vs.bit_rate = some s → isDigitStr s = true →
        p.bitrate_kbps = pyInt s / 1000) ∧
      ((vs.bit_rate = none ∨ vs.bit_rate = some "") →
        p.bitrate_kbps = parseBitrate pd.format_bit_rate) ∧
      (∀ s, vs.bit_rate = some s → ¬ s = "" → isDigitStr s = false →
        p.bitrate_kbps = 0) := by
  rw [extractInfo_char, hvs]
  refine ⟨_, rfl, ?_, ?_, ?_⟩
  · intro s hs hd
    have hne : ¬ s = "" := by
      intro he
      rw [he] at hd
      exact absurd hd (by decide)
    simp [pyOr, hs, hne, parseBitrate, hd]
  · intro hcase
    rcases hcase with h | h <;> simp [pyOr, h]
  · intro s hs hne hd
    simp [pyOr, hs, hne, parseBitrate, hd]

/-- C6 amended witness at the invalid-stream-bitrate tree. -/
theorem extractInfo_bitrate_witness :
    ∃ p, extractInfo c6BadStreamRate = some p ∧
      (∀ s, c6Stream.bit_rate = some s → isDigitStr s = true →
        p.bitrate_kbps = pyInt s / 1000) ∧
      ((c6Stream.bit_rate = none ∨ c6Stream.bit_rate = some "") →
        p.bitrate_kbps = parseBitrate c6BadStreamRate.format_bit_rate) ∧
      (∀ s, c6Stream.bit_rate = some s → ¬ s = "" → isDigitStr s = false →
        p.bitrate_kbps = 0) :=
  extractInfo_bitrate c6BadStreamRate c6Stream (by decide)

end QianchuanProcessor

namespace QianchuanProcessor

/-- Encoder output options forced in the re-encode branch (lines 222-227). -/
structure OutputOpts where
  vcodec : String
  video_bitrate : String
  preset : String
  pix_fmt : String
  deriving DecidableEq, Repr

/-- The literal options dict of lines 222-227. -/
def forcedOutputOpts : OutputOpts :=
  { vcodec := "libx264", video_bitrate := "1000k", preset := "fast",
    pix_fmt := "yuv420p" }

/-- The encode request assembled by `process_video` lines 201-248: the
scale/crop geometry, the optional fps filter (line 221), the optional
forced encoder options, and whether the original audio stream is mapped
unmodified into the output (lines 232-239). -/
structure EncodePlan where
  geometry : GeometryPlan
  fpsFilter : Option ℕ
  opts : Option OutputOpts
  includeAudio : Bool
  deriving DecidableEq, Repr

/-- The per-file action decided by `process_video` (lines 173-251). -/
inductive VideoAction where
  | skipped
  | copied
  | encoded (plan : EncodePlan)
  deriving DecidableEq, Repr

/-- Embeds `process_video` (lines 173-251) up to the external invocations:
a `None` probe is skipped (lines 175-177); all three conformance checks
passing routes to pass-through copy (lines 186-192); otherwise the encode
plan is assembled from the geometry of lines 201-211, the forced-parameter
branch of lines 220-229 and the audio mapping of lines 232-239. -/
def process_video (info : Option VideoProbe) : VideoAction :=
  match info with
  | none => .skipped
  | some i =>
    let aspect_ok := aspectOk i.width i.height
    let res_ok := resolutionOk i.width i.height
    let bitrate_ok : Bool := decide (MIN_BITRATE_K ≤ i.bitrate_kbps)
    if aspect_ok && res_ok && bitrate_ok then
      .copied
    else
      let forced := !bitrate_ok || !aspect_ok || !res_ok
      .encoded { geometry := geometryPlan i.width i.height
                 fpsFilter := if forced then some TARGET_FPS else none
                 opts := if forced then some forcedOutputOpts else none
                 includeAudio := i.has_audio }

/-- C2: the conformance classifier. The aspect check is the rational
tolerance band, the resolution check is the inclusive size band, a probe is
routed to pass-through copy exactly when aspect, resolution and the 516-kbps
bitrate floor all hold, and the four boundary resolution evaluations of the
spec come out as stated. -/
theorem conformance_routing :
    (∀ w h b fps audio, 0 < h →
      ((aspectOk w h = true ↔ |(w : ℚ) / (h : ℚ) - 9 / 16| ≤ 1 / 100) ∧
       (resolutionOk w h = true ↔
         ((720 ≤ w ∧ w ≤ 1440) ∧ (1280 ≤ h ∧ h ≤ 2560))) ∧
       (process_video (some ⟨w, h, b, fps, audio⟩) = .copied ↔
         (aspectOk w h = true ∧ resolutionOk w h = true ∧ 516 ≤ b)))) ∧
    resolutionOk 1080 1920 = true ∧ resolutionOk 1440 2560 = true ∧
    resolutionOk 1441 1920 = false ∧ resolutionOk 1080 1279 = false := by
  refine ⟨?_, by decide, by decide, by decide, by decide⟩
  intro w h b fps audio hh
  refine ⟨by simp [aspectOk], by simp [resolutionOk], ?_⟩
  simp only [process_video, MIN_BITRATE_K]
  by_cases ha : aspectOk w h <;> by_cases hr : resolutionOk w h <;>
    by_cases hb : 516 ≤ b <;> simp [ha, hr, hb]

/-- C2 witness at the conformant probe 1080x1920 at 600 kbps. -/
theorem conformance_routing_witness :
    process_video (some ⟨1080, 1920, 600, 30, true⟩) = .copied ↔
      (aspectOk 1080 1920 = true ∧ resolutionOk 1080 1920 = true ∧
        516 ≤ 600) :=
  (conformance_routing.1 1080 1920 600 30 true (by decide)).2.2

/-- C7: whenever at least one of the three conformance checks fails, the
assembled plan always carries the forced parameters — fps filter 30, codec
libx264, bitrate 1000k, preset fast, pixel format yuv420p — the unforced
branch is never taken, and the original audio stream is included iff the
probe has audio. -/
theorem process_video_forced (p : VideoProbe)
    (hfail : ¬(aspectOk p.width p.height = true ∧
               resolutionOk p.width p.height = true ∧
               MIN_BITRATE_K ≤ p.bitrate_kbps)) :
    process_video (some p) =
      .encoded { geometry := geometryPlan p.width p.height
                 fpsFilter := some TARGET_FPS
                 opts := some forcedOutputOpts
                 includeAudio := p.has_audio } := by
  simp only [process_video]
  by_cases ha : aspectOk p.width p.height <;>
    by_cases hr : resolutionOk p.width p.height <;>
    by_cases hb : decide (MIN_BITRATE_K ≤ p.bitrate_kbps) = true <;>
    simp only [decide_eq_true_eq] at hb <;>
    simp [ha, hr, hb]
  exact absurd ⟨ha, hr, hb⟩ hfail

/-- C7 witness at a probe failing only the bitrate floor. -/
theorem process_video_forced_witness :
    process_video (some ⟨1080, 1920, 400, 30, true⟩) =
      .encoded { geometry := geometryPlan 1080 1920
                 fpsFilter := some TARGET_FPS
                 opts := some forcedOutputOpts
                 includeAudio := true } :=
  process_video_forced ⟨1080, 1920, 400, 30, true⟩ (by simp [MIN_BITRATE_K])

/-- C10: the copy-versus-encode decision and the assembled plan are
independent of the probed frame rate — two probes equal in width, height,
bitrate and audio flag but different in fps produce the same action. -/
theorem process_video_fps_independent (p q : VideoProbe)
    (hw : p.width = q.width) (hh : p.height = q.height)
    (hb : p.bitrate_kbps = q.bitrate_kbps)
    (ha : p.has_audio = q.has_audio) :
    process_video (some p) = process_video (some q) := by
  obtain ⟨w1, h1, b1, f1, a1⟩ := p
  obtain ⟨w2, h2, b2, f2, a2⟩ := q
  simp only at hw hh hb ha
  subst hw
  subst hh
  subst hb
  subst ha
  rfl

/-- C10 witness: probes at 24 and 60 fps, otherwise identical. -/
theorem process_video_fps_independent_witness :
    process_video (some ⟨1080, 1920, 400, 24, true⟩) =
      process_video (some ⟨1080, 1920, 400, 60, true⟩) :=
  process_video_fps_independent ⟨1080, 1920, 400, 24, true⟩
    ⟨1080, 1920, 400, 60, true⟩ rfl rfl rfl rfl

/-- The no-audio filename marker of line 279. -/
def noAudioMarker : String := "【无音频】"

/-- Output naming of `process_all_videos` lines 269-282: probe first; a
failed probe defaults to has-audio (line 272); audio present keeps the
original name (stem ++ extension); otherwise the output name is the stem, an
underscore, the marker twice, then the original extension (line 279). -/
def outputFileName (info : Option VideoProbe) (stem ext : String) : String :=
  let has_audio := match info with
    | some p => p.has_audio
    | none => true
  if has_audio then stem ++ ext
  else stem ++ "_" ++ noAudioMarker ++ noAudioMarker ++ ext

/-- C9: the output filename is the original one when the probe reports audio
or the probe failed; when the probe reports no audio it is the original stem
followed by the duplicated marker with the original extension after it. -/
theorem outputFileName_spec (info : Option VideoProbe) (stem ext : String) :
    (∀ p, info = some p → p.has_audio = true →
      outputFileName info stem ext = stem ++ ext) ∧
    (info = none → outputFileName info stem ext = stem ++ ext) ∧
    (∀ p, info = some p → p.has_audio = false →
      outputFileName info stem ext =
        stem ++ "_" ++ noAudioMarker ++ noAudioMarker ++ ext) := by
  refine ⟨?_, ?_, ?_⟩ <;> intros <;> simp_all [outputFileName]

/-- C9 witness at a silent probe and the name "clip.mp4". -/
theorem outputFileName_spec_witness :
    outputFileName (some ⟨1080, 1920, 400, 30, false⟩) "clip" ".mp4" =
      "clip" ++ "_" ++ noAudioMarker ++ noAudioMarker ++ ".mp4" :=
  (outputFileName_spec (some ⟨1080, 1920, 400, 30, false⟩) "clip" ".mp4").2.2
    ⟨1080, 1920, 400, 30, false⟩ rfl rfl

end QianchuanProcessor

namespace QianchuanProcessor

/-- Outcome of the ffprobe subprocess call of lines 55-66: a non-zero exit
raises CalledProcessError (caught at line 154), otherwise the raw standard
output decoded as UTF-8 with invalid sequences ignored. -/
inductive SubprocessResult where
  | procError
  | ok (stdout : String)
  deriving DecidableEq, Repr

/-- Whether a character is removed by the control-character regex of line
77, `[\x00-\x08\x0b\x0c\x0e-\x1f]` (tab, newline and carriage return are
kept). -/
def isStrippedControl (c : Char) : Bool :=
  (c.toNat ≤ 8) || (c.toNat = 11) || (c.toNat = 12) ||
    (14 ≤ c.toNat && c.toNat ≤ 31)

/-- Lines 74-77: strip leading byte-order marks and remove the control
characters matched by the regex. -/
def cleanStr (s : String) : String :=
  String.mk ((s.data.dropWhile (fun c => c = '\uFEFF')).filter
    (fun c => !isStrippedControl c))

/-- Embeds `get_video_info` (lines 47-159) end to end. The external pieces
are explicit parameters: whether the ffprobe binary exists (line 50), the
subprocess outcome, the `json.loads` parser `parse` (applied to the cleaned
string at line 83 and, on failure, to the repaired string at line 106) and
the regex repair chain `repair` of lines 89-102. Every failure path of the
Python function returns `None`; the enclosing try/except of lines 49-159
turns any other error into `None` as well. -/
def get_video_info (ffprobeExists : Bool) (res : SubprocessResult)
    (parse : String → Option ProbeData) (repair : String → String) :
    Option VideoProbe :=
  if ffprobeExists = false then none
  else
    match res with
    | .procError => none
    | .ok stdout =>
      if stdout = "" then none
      else
        let json_str := cleanStr stdout
        match parse json_str with
        | some pd => extractInfo pd
        | none =>
          match parse (repair json_str) with
          | some pd => extractInfo pd
          | none => none

/-- C8: the prober always returns a probe or the distinguished `none`
result, for every subprocess outcome and every behavior of the external
parser and repair chain; and when parsing fails on both the cleaned and the
repaired string, the result is `none` — a metadata parse failure never
escapes as an error. -/
theorem get_video_info_failsoft (fe : Bool) (res : SubprocessResult)
    (parse : String → Option ProbeData) (repair : String → String) :
    (get_video_info fe res parse repair = none ∨
      ∃ p, get_video_info fe res parse repair = some p) ∧
    (∀ s, res = SubprocessResult.ok s → parse (cleanStr s) = none →
      parse (repair (cleanStr s)) = none →
      get_video_info fe res parse repair = none) := by
  constructor
  · cases hres : get_video_info fe res parse repair with
    | none => exact Or.inl rfl
    | some p => exact Or.inr ⟨p, rfl⟩
  · intro s hs h1 h2
    subst hs
    unfold get_video_info
    cases fe
    · simp
    · by_cases hse : s = "" <;> simp [hse, h1, h2]

/-- C8 witness: truncated garbage output that fails both parse attempts
yields the unprobeable result. -/
theorem get_video_info_failsoft_witness :
    get_video_info true (SubprocessResult.ok "truncated ffprobe output")
      (fun _ => none) (fun t => t) = none :=
  (get_video_info_failsoft true (SubprocessResult.ok "truncated ffprobe output")
      (fun _ => none) (fun t => t)).2 "truncated ffprobe output" rfl rfl rfl

end QianchuanProcessor
